import Mathlib

/-!
# Verification of jellyfin_time_limiter.py

A shallow embedding of the script `src/jellyfin_time_limiter.py`: a linear
request/decide/update pipeline that (1) checks configuration, (2) resolves a
user id by name from `GET /Users`, (3) queries today's playback activity and
sums the PlayDuration column, (4) compares the total against a configured
limit, and (5) updates the user's folder-access policy only on mismatch.

Numbers: Python floats are modelled as rationals (ℚ); HTTP status codes as ℕ;
environment variables and optional JSON keys as `Option`.  Python truthiness
of an optional string (`not x` is true for both `None` and `""`) is modelled
explicitly by `pyFalsyStr`.
-/

namespace TimeLimiter

/-- A JSON cell value as it can appear in a playback-activity row:
a string, a number, a boolean, or null. -/
inductive Value where
  | vstr (s : String)
  | vnum (q : ℚ)
  | vbool (b : Bool)
  | vnull
  deriving DecidableEq

/-- A nonempty all-digit character sequence read as a natural number;
`none` otherwise. -/
def digitsToNat (cs : List Char) : Option ℕ :=
  if cs ≠ [] && cs.all Char.isDigit then
    some (cs.foldl (fun n c => 10 * n + (c.toNat - 48)) 0)
  else none

/-- Models Python `float(s)` on a plain decimal string literal: optional
surrounding whitespace, optional sign, then either an integer part, or an
integer/fraction pair separated by one dot (at least one digit overall).
Exponent and inf/nan forms are not modelled; no claim depends on them. -/
def parseFloatStr (s : String) : Option ℚ :=
  let t := ((s.data.dropWhile (·.isWhitespace)).reverse.dropWhile (·.isWhitespace)).reverse
  let signed : ℚ × List Char :=
    match t with
    | c :: cs => if c = '-' then (-1, cs) else if c = '+' then (1, cs) else (1, t)
    | [] => (1, [])
  let sign := signed.1
  match signed.2.span (· != '.') with
  | (w, []) => (digitsToNat w).map (fun n => sign * (n : ℚ))
  | (w, _ :: f) =>
      if f.contains '.' then none
      else if w.isEmpty && f.isEmpty then none
      else if (w.isEmpty || (digitsToNat w).isSome) && (f.isEmpty || (digitsToNat f).isSome) then
        some (sign * (((digitsToNat w).getD 0 : ℚ) + ((digitsToNat f).getD 0 : ℚ) / (10 ^ f.length)))
      else none

/-- Models `float(duration_str)` under the `try/except (ValueError, TypeError)`
of the summing loop: strings parse as decimal literals, numbers are already
numeric, Python booleans coerce (`float(True) = 1.0`), and `float(None)`
raises `TypeError`, i.e. fails. -/
def parseDuration : Value → Option ℚ
  | .vstr s => parseFloatStr s
  | .vnum q => some q
  | .vbool b => some (if b then 1 else 0)
  | .vnull => none

/-- The parsed body of the custom-query response
`{'colums': [...], 'results': [[...]], ...}`.  Each field is `Option` because
the code reads both through `.get(key, [])`, i.e. the key may be absent.
The misspelled key name `colums` is the API's actual contract and is kept. -/
structure QueryResponse where
  colums : Option (List String)
  results : Option (List (List Value))
  deriving DecidableEq

/-- Line 203: `ENABLE_ACCESS = total_watch_time_minutes < JELLYFIN_MAX_WATCH_TIME_MINUTES`
with `total_watch_time_minutes = total_watch_time_seconds / 60` (line 200). -/
def enableAccessOf (total_watch_time_seconds : ℚ) (limit : ℤ) : Bool :=
  decide (total_watch_time_seconds / 60 < (limit : ℚ))

/-- The summing loop of lines 190-198, as a left-to-right accumulation over
the rows.  The accumulator is (total seconds so far, parse-warning count so
far).  A row without a value at `idx` (`len(row) > play_duration_index`
fails) is skipped silently; a row whose value fails `float(...)` is skipped
and logged as a warning. -/
def sumDurationsAux (idx : ℕ) (acc : ℚ × ℕ) : List (List Value) → ℚ × ℕ
  | [] => acc
  | row :: rest =>
      match row.get? idx with
      | none => sumDurationsAux idx acc rest
      | some v =>
        match parseDuration v with
        | some q => sumDurationsAux idx (acc.1 + q, acc.2) rest
        | none => sumDurationsAux idx (acc.1, acc.2 + 1) rest

/-- `total_watch_time_seconds` of lines 190-198 together with the number of
rows skipped with a parse warning. -/
def sumDurations (idx : ℕ) (results : List (List Value)) : ℚ × ℕ :=
  sumDurationsAux idx (0, 0) results

/-- The usage stage, lines 154-203: from the HTTP status of the custom-query
call and its parsed body, compute `(ENABLE_ACCESS, total_watch_time_minutes)`.
`none` in the second component is Python's `total_watch_time_minutes = None`.
This stage never exits the process. -/
def usageStage (status : ℕ) (resp : QueryResponse) (limit : ℤ) : Bool × Option ℚ :=
  if status ≠ 200 then
    (true, none)
  else
    let columns := resp.colums.getD []
    let results := resp.results.getD []
    if results = [] then (true, some 0)
    else if columns = [] then (false, none)
    else
      match columns.findIdx? (· == "PlayDuration") with
      | none => (false, none)
      | some play_duration_index =>
        let total_watch_time_seconds := (sumDurations play_duration_index results).1
        (enableAccessOf total_watch_time_seconds limit, some (total_watch_time_seconds / 60))

/-- Lines 221-229: whether the current policy must be rewritten, from
`ENABLE_ACCESS`, `current_enable_all` and `current_enabled_folders`. -/
def needs_update (ENABLE_ACCESS current_enable_all : Bool)
    (current_enabled_folders : List String) : Bool :=
  if ENABLE_ACCESS then
    !current_enable_all
  else
    current_enable_all || decide (current_enabled_folders ≠ [])

/-- The update payload of lines 233-241.  `EnabledFolders = none` means the
key is absent from the JSON body (it is only added when disabling). -/
structure UpdatePayload where
  AuthenticationProviderId : String
  PasswordResetProviderId : String
  EnableAllFolders : Bool
  EnabledFolders : Option (List String)
  deriving DecidableEq

/-- Lines 233-241: build the policy-update body from `ENABLE_ACCESS`. -/
def buildPolicyPayload (ENABLE_ACCESS : Bool) : UpdatePayload :=
  { AuthenticationProviderId :=
      "Jellyfin.Server.Implementations.Users.DefaultAuthenticationProvider"
    PasswordResetProviderId :=
      "Jellyfin.Server.Implementations.Users.DefaultPasswordResetProvider"
    EnableAllFolders := ENABLE_ACCESS
    EnabledFolders := if ENABLE_ACCESS then none else some [] }

/-- Effect of the policy write on the remote `(EnableAllFolders,
EnabledFolders)` pair: a field present in the payload overwrites the remote
field, an absent field is left untouched. -/
def applyWrite (ENABLE_ACCESS : Bool) (p : Bool × List String) : Bool × List String :=
  ( (buildPolicyPayload ENABLE_ACCESS).EnableAllFolders,
    match (buildPolicyPayload ENABLE_ACCESS).EnabledFolders with
    | some fs => fs
    | none => p.2 )

/-- One reconciler pass over the remote policy state: write (per lines
232-245) exactly when `needs_update` holds, else leave the state unchanged. -/
def runOnce (ENABLE_ACCESS : Bool) (p : Bool × List String) : Bool × List String :=
  if needs_update ENABLE_ACCESS p.1 p.2 then applyWrite ENABLE_ACCESS p else p

/-- One entry of the `GET /Users` response, as far as the script reads it. -/
structure User where
  Name : String
  Id : String
  deriving DecidableEq

/-- Lines 113-120: the first-match scan
`for user in users: if user["Name"] == USER_NAME: target_user_id = user["Id"]; break`.
`none` is Python's `target_user_id = None` (no entry matched). -/
def target_user_id (users : List User) (USER_NAME : String) : Option String :=
  (users.find? (fun user => user.Name == USER_NAME)).map User.Id

/-- Python truthiness test `not x` for an optional string: true for `None`
and for the empty string. -/
def pyFalsyStr : Option String → Bool
  | none => true
  | some s => s == ""

/-- The stage at which a fatal error exits the process with status 1. -/
inductive Stage where
  | usersFetch
  | userNotFound
  | policyFetch
  | policyUpdate
  deriving DecidableEq

/-- The user-resolver stage, lines 107-124: exit 1 if the `GET /Users` status
is not 200 (line 109), otherwise scan for the configured name and exit 1 if
`not target_user_id` (line 122) — which is true both when no entry matched
and when the matched `Id` is the empty string. -/
def resolveUser (status : ℕ) (users : List User) (USER_NAME : String) :
    Except Stage String :=
  if status ≠ 200 then .error .usersFetch
  else
    match target_user_id users USER_NAME with
    | none => .error .userNotFound
    | some id => if id == "" then .error .userNotFound else .ok id

/-- Outcome of the part of the run after configuration checks. -/
inductive RunOutcome where
  | exitError (stage : Stage)
  | finished (ENABLE_ACCESS : Bool) (didWrite : Bool)
  deriving DecidableEq

/-- Raw `Policy` object of the `GET /Users/{id}` response; each field may be
absent (the code reads them via `.get` with defaults, lines 217-218). -/
structure RawPolicy where
  EnableAllFolders : Option Bool
  EnabledFolders : Option (List String)
  deriving DecidableEq

/-- The reconciler stage, lines 205-250: exit 1 if the policy fetch is not
200; read the current fields with defaults `True` and `[]`; write exactly
when `needs_update`; a write status other than 204 and 200 exits 1. -/
def reconcile (ENABLE_ACCESS : Bool) (policyStatus : ℕ) (raw : RawPolicy)
    (updateStatus : ℕ) : RunOutcome :=
  if policyStatus ≠ 200 then .exitError .policyFetch
  else
    let current_enable_all := raw.EnableAllFolders.getD true
    let current_enabled_folders := raw.EnabledFolders.getD []
    if needs_update ENABLE_ACCESS current_enable_all current_enabled_folders then
      if updateStatus ≠ 204 ∧ updateStatus ≠ 200 then .exitError .policyUpdate
      else .finished ENABLE_ACCESS true
    else .finished ENABLE_ACCESS false

/-- The whole run after the configuration checks (lines 107-250), with every
remote response supplied as an argument: resolver, then usage stage, then
reconciler. -/
def runPipeline (usersStatus : ℕ) (users : List User) (USER_NAME : String)
    (usageStatus : ℕ) (resp : QueryResponse) (limit : ℤ)
    (policyStatus : ℕ) (raw : RawPolicy) (updateStatus : ℕ) : RunOutcome :=
  match resolveUser usersStatus users USER_NAME with
  | .error st => .exitError st
  | .ok _ =>
      let usage := usageStage usageStatus resp limit
      reconcile usage.1 policyStatus raw updateStatus

/-- Result of a whole invocation of the script. -/
inductive ScriptResult where
  | configExit
  | ran (o : RunOutcome)
  deriving DecidableEq

/-- The whole script, lines 9-250: the configuration checks of lines 18-24
(`if not JELLYFIN_TOKEN: exit(1)`, then `if not USER_NAME: exit(1)`) run
before any network call; only if both pass does the pipeline run. -/
def script (JELLYFIN_TOKEN USER_NAME : Option String)
    (usersStatus : ℕ) (users : List User)
    (usageStatus : ℕ) (resp : QueryResponse) (limit : ℤ)
    (policyStatus : ℕ) (raw : RawPolicy) (updateStatus : ℕ) : ScriptResult :=
  if pyFalsyStr JELLYFIN_TOKEN then .configExit
  else if pyFalsyStr USER_NAME then .configExit
  else .ran (runPipeline usersStatus users (USER_NAME.getD "")
      usageStatus resp limit policyStatus raw updateStatus)

/-! ## Spec-side definitions

These restate, in the spec's own words, what the claims assert about the
code; the theorems below compare them with the definitions above. -/

/-- Spec §4.2: the aggregate total is the sum of the successfully
numeric-parsed values at the duration column's position, across all rows;
rows without such a value contribute nothing. -/
def specTotalSeconds (idx : ℕ) (results : List (List Value)) : ℚ :=
  (results.filterMap (fun row => (row.get? idx).bind parseDuration)).sum

/-- Spec §4.2: the number of rows whose value at the duration column's
position exists but fails the numeric parse (each is skipped with a logged
warning). -/
def specSkippedRows (idx : ℕ) (results : List (List Value)) : ℕ :=
  results.countP (fun row => ((row.get? idx).isSome && ((row.get? idx).bind parseDuration).isNone))

/-- Spec §4.3 equivalence rule: when desired is enabled the current state
matches iff `enableAllFolders` is true; when desired is disabled it matches
iff `enableAllFolders` is false and `enabledFolders` is empty. -/
def currentMatchesDesired (desiredEnabled enableAllFolders : Bool)
    (enabledFolders : List String) : Bool :=
  if desiredEnabled then enableAllFolders
  else !enableAllFolders && enabledFolders.isEmpty

/-! ## Helper lemmas -/

/-- The summing loop equals the spec's filter-and-sum description, for any
starting accumulator. -/
theorem sumDurationsAux_spec (idx : ℕ) (l : List (List Value)) : ∀ acc : ℚ × ℕ,
    sumDurationsAux idx acc l =
      (acc.1 + specTotalSeconds idx l, acc.2 + specSkippedRows idx l) := by
  induction l with
  | nil =>
      intro acc
      simp [sumDurationsAux, specTotalSeconds, specSkippedRows]
  | cons row rest ih =>
      intro acc
      cases hg : row[idx]? with
      | none =>
          simp [sumDurationsAux, hg, specTotalSeconds, specSkippedRows,
            List.filterMap_cons, List.countP_cons, ih]
      | some v =>
          cases hp : parseDuration v with
          | none =>
              simp [sumDurationsAux, hg, hp, specTotalSeconds, specSkippedRows,
                List.filterMap_cons, List.countP_cons, ih]
              omega
          | some q =>
              simp [sumDurationsAux, hg, hp, specTotalSeconds, specSkippedRows,
                List.filterMap_cons, List.countP_cons, ih]
              ring

/-- `total_watch_time_seconds` and the warning count equal their spec-side
descriptions. -/
theorem sumDurations_spec (idx : ℕ) (l : List (List Value)) :
    sumDurations idx l = (specTotalSeconds idx l, specSkippedRows idx l) := by
  simp [sumDurations, sumDurationsAux_spec]

/-- The first-match scan returns the `Id` of the first entry whose `Name`
equals the configured name. -/
theorem target_user_id_first (name : String) (l₁ : List User) (u : User)
    (l₂ : List User) (h₁ : ∀ v ∈ l₁, v.Name ≠ name) (hu : u.Name = name) :
    target_user_id (l₁ ++ u :: l₂) name = some u.Id := by
  induction l₁ with
  | nil => simp [target_user_id, List.find?_cons, hu]
  | cons w l ih =>
      have hw : w.Name ≠ name := h₁ w (by simp)
      have hrest : ∀ v ∈ l, v.Name ≠ name := fun v hv => h₁ v (by simp [hv])
      simpa [target_user_id, List.find?_cons, hw] using ih hrest

/-! ## Claim theorems -/

/-- Claim C2: `needs_update` is true exactly when the current policy does not
count as matching the desired state under the spec's equivalence rule:
desired-enabled matches iff `enableAllFolders` is true (empty folder list
with `enableAllFolders` false is not treated as enabled), desired-disabled
matches iff `enableAllFolders` is false and `enabledFolders` is empty. -/
theorem needs_update_equivalence_rule (desiredEnabled enableAllFolders : Bool)
    (enabledFolders : List String) :
    needs_update desiredEnabled enableAllFolders enabledFolders =
      !(currentMatchesDesired desiredEnabled enableAllFolders enabledFolders) := by
  cases desiredEnabled <;> cases enableAllFolders <;> cases enabledFolders <;>
    simp [needs_update, currentMatchesDesired]

/-- Claim C3: reconciliation is idempotent.  With the desired state computed from
any usage total and limit, one reconciler pass (which writes
`enableAllFolders := desired` and, when disabling, clears `enabledFolders`)
reaches a state in which `needs_update` is false, so a second pass with the
same usage total performs zero policy writes and changes nothing; in
particular the reconciler reports `didWrite = false` on the second pass. -/
theorem reconcile_idempotent (t : ℚ) (limit : ℤ) (p : Bool × List String)
    (updateStatus : ℕ) :
    needs_update (enableAccessOf t limit) (runOnce (enableAccessOf t limit) p).1
        (runOnce (enableAccessOf t limit) p).2 = false
    ∧ runOnce (enableAccessOf t limit) (runOnce (enableAccessOf t limit) p) =
        runOnce (enableAccessOf t limit) p
    ∧ reconcile (enableAccessOf t limit) 200
        ⟨some (runOnce (enableAccessOf t limit) p).1,
         some (runOnce (enableAccessOf t limit) p).2⟩ updateStatus =
        .finished (enableAccessOf t limit) false := by
  rcases p with ⟨ea, f⟩
  cases hd : enableAccessOf t limit <;> cases ea <;> cases f <;>
    simp [runOnce, needs_update, applyWrite, buildPolicyPayload, reconcile]

/-- Claim C7: a successful usage query with an empty result set (no playback rows
today) yields a total of exactly 0 minutes and desired state enabled. -/
theorem empty_results_zero_and_enabled (resp : QueryResponse) (limit : ℤ)
    (hres : resp.results.getD [] = []) :
    usageStage 200 resp limit = (true, some 0) := by
  simp [usageStage, hres]

/-- Witness for C7: empty results at limit 42. -/
theorem empty_results_zero_and_enabled_witness :
    usageStage 200 ⟨some ["PlayDuration"], some []⟩ 42 = (true, some 0) :=
  empty_results_zero_and_enabled ⟨some ["PlayDuration"], some []⟩ 42 rfl

/-- Claim C9: the update payload sets `EnableAllFolders` to the desired boolean and
always carries the two fixed provider identifiers verbatim; `EnabledFolders`
is present (and empty) exactly when disabling, and the write with an absent
`EnabledFolders` leaves the remote folder list untouched. -/
theorem policy_payload_shape (ENABLE_ACCESS : Bool) (p : Bool × List String) :
    (buildPolicyPayload ENABLE_ACCESS).EnableAllFolders = ENABLE_ACCESS
    ∧ (buildPolicyPayload ENABLE_ACCESS).AuthenticationProviderId =
        "Jellyfin.Server.Implementations.Users.DefaultAuthenticationProvider"
    ∧ (buildPolicyPayload ENABLE_ACCESS).PasswordResetProviderId =
        "Jellyfin.Server.Implementations.Users.DefaultPasswordResetProvider"
    ∧ (buildPolicyPayload ENABLE_ACCESS).EnabledFolders =
        (if ENABLE_ACCESS then none else some ([] : List String))
    ∧ applyWrite true p = (true, p.2)
    ∧ applyWrite false p = (false, []) := by
  cases ENABLE_ACCESS <;>
    simp [buildPolicyPayload, applyWrite]

/-- Claim C1 counterexample: with an empty result set and a threshold of 0
minutes, the parsed total is exactly 0 minutes, which is greater than or
equal to the threshold, yet the code's desired state is enabled (line 172
short-circuits before the comparison of line 203), contradicting the claim
that every total ≥ threshold yields disabled. -/
theorem threshold_comparison_counterexample :
    usageStage 200 ⟨some ["PlayDuration"], some []⟩ 0 = (true, some 0)
    ∧ ((0 : ℤ) : ℚ) ≤ (0 : ℚ) / 60 := by
  constructor
  · simp [usageStage]
  · norm_num

/-- Claim C1 (amended: restricted to results with at least one row, the only
case in which line 203 runs): the desired state is
`(totalSeconds / 60) < thresholdMinutes` — strictly below the threshold
gives enabled, greater than or equal (including exactly equal) gives
disabled. -/
theorem threshold_comparison (resp : QueryResponse) (limit : ℤ) (idx : ℕ)
    (hres : resp.results.getD [] ≠ [])
    (hidx : (resp.colums.getD []).findIdx? (· == "PlayDuration") = some idx) :
    ((usageStage 200 resp limit).1 = true ↔
        specTotalSeconds idx (resp.results.getD []) / 60 < (limit : ℚ))
    ∧ ((usageStage 200 resp limit).1 = false ↔
        (limit : ℚ) ≤ specTotalSeconds idx (resp.results.getD []) / 60) := by
  have hcols : resp.colums.getD [] ≠ [] := by
    intro h
    rw [h] at hidx
    simp [List.findIdx?] at hidx
  simp [usageStage, hres, hcols, hidx, enableAccessOf, sumDurations_spec, not_lt]

/-- Witness for the amended C1: a total of 5400 seconds is exactly 90
minutes, equal to the limit 90, so the desired state is disabled. -/
theorem threshold_comparison_witness :
    (usageStage 200 ⟨some ["PlayDuration"], some [[.vstr "5400"]]⟩ 90).1 = false := by
  have h := threshold_comparison ⟨some ["PlayDuration"], some [[.vstr "5400"]]⟩ 90 0
    (by simp) (by simp [List.findIdx?])
  refine h.2.mpr ?_
  have hS : specTotalSeconds 0 [[Value.vstr "5400"]] = 5400 := by
    simp [specTotalSeconds, parseDuration, parseFloatStr, digitsToNat]
  simp only [Option.getD_some]
  rw [hS]
  norm_num

/-- Claim C4: a usage-query status other than 200 does not abort the run:
the stage yields desired state enabled with the day's total unknown
(`None`), and — whenever the resolver succeeded — the pipeline still reaches
the policy-reconciliation stage, with desired state enabled. -/
theorem usage_failure_fail_permissive (usersStatus : ℕ) (users : List User)
    (USER_NAME uid : String) (usageStatus : ℕ) (resp : QueryResponse) (limit : ℤ)
    (policyStatus : ℕ) (raw : RawPolicy) (updateStatus : ℕ)
    (hus : usageStatus ≠ 200) :
    usageStage usageStatus resp limit = (true, none)
    ∧ (resolveUser usersStatus users USER_NAME = .ok uid →
        runPipeline usersStatus users USER_NAME usageStatus resp limit
            policyStatus raw updateStatus =
          reconcile true policyStatus raw updateStatus) := by
  have h1 : usageStage usageStatus resp limit = (true, none) := by
    simp [usageStage, hus]
  exact ⟨h1, fun hok => by simp [runPipeline, hok, h1]⟩

/-- Witness for C4 at a concrete failing status 500. -/
theorem usage_failure_fail_permissive_witness :
    usageStage 500 ⟨none, none⟩ 90 = (true, none)
    ∧ runPipeline 200 [⟨"kid", "abc"⟩] "kid" 500 ⟨none, none⟩ 90 200 ⟨none, none⟩ 204 =
        reconcile true 200 ⟨none, none⟩ 204 := by
  have h := usage_failure_fail_permissive 200 [⟨"kid", "abc"⟩] "kid" "abc" 500
    ⟨none, none⟩ 90 200 ⟨none, none⟩ 204 (by decide)
  exact ⟨h.1, h.2 (by rfl)⟩

/-- Claim C5: whenever the columns list (read from the misspelled key
`colums`) contains "PlayDuration" at position `idx`, the reported total
equals the sum of the successfully parsed values at position `idx` over all
rows — rows without a value at that position and rows whose value fails the
numeric parse contribute nothing — and the warning count equals the number
of rows whose value exists but fails to parse. -/
theorem aggregation_matches_spec (resp : QueryResponse) (limit : ℤ) (idx : ℕ)
    (hidx : (resp.colums.getD []).findIdx? (· == "PlayDuration") = some idx) :
    (usageStage 200 resp limit).2 =
        some (specTotalSeconds idx (resp.results.getD []) / 60)
    ∧ sumDurations idx (resp.results.getD []) =
        (specTotalSeconds idx (resp.results.getD []),
          specSkippedRows idx (resp.results.getD [])) := by
  have hcols : resp.colums.getD [] ≠ [] := by
    intro h
    rw [h] at hidx
    simp [List.findIdx?] at hidx
  refine ⟨?_, sumDurations_spec idx _⟩
  by_cases hres : resp.results.getD [] = []
  · simp [usageStage, hres, specTotalSeconds]
  · simp [usageStage, hres, hcols, hidx, sumDurations_spec]

/-- Witness for C5: the spec's example — values "120", "bad", "60" in a
single "PlayDuration" column — totals 180 seconds = 3.0 minutes with exactly
one row skipped by a parse warning. -/
theorem aggregation_matches_spec_witness :
    (usageStage 200
        ⟨some ["PlayDuration"], some [[.vstr "120"], [.vstr "bad"], [.vstr "60"]]⟩ 90).2 =
      some 3
    ∧ sumDurations 0 [[.vstr "120"], [.vstr "bad"], [.vstr "60"]] = (180, 1) := by
  have h := aggregation_matches_spec
    ⟨some ["PlayDuration"], some [[.vstr "120"], [.vstr "bad"], [.vstr "60"]]⟩ 90 0
    (by simp [List.findIdx?])
  have hS : specTotalSeconds 0 [[.vstr "120"], [.vstr "bad"], [.vstr "60"]] = 180 := by
    simp [specTotalSeconds, parseDuration, parseFloatStr, digitsToNat]
    norm_num
  have hW : specSkippedRows 0 [[.vstr "120"], [.vstr "bad"], [.vstr "60"]] = 1 := by
    simp [specSkippedRows, parseDuration, parseFloatStr, digitsToNat]
  simp only [Option.getD_some] at h
  refine ⟨?_, ?_⟩
  · rw [h.1, hS]
    norm_num
  · rw [h.2, hS, hW]

/-- Claim C6 counterexample: a successful response with the columns list
missing and no rows is, as worded, a "response whose columns list is
missing", yet the code's empty-results branch (line 169) wins and yields
desired state enabled with total 0, not the claimed disabled default. -/
theorem unparseable_default_counterexample :
    usageStage 200 ⟨none, none⟩ 90 = (true, some 0)
    ∧ (usageStage 200 ⟨none, none⟩ 90).1 ≠ false := by
  constructor
  · simp [usageStage]
  · simp [usageStage]

/-- Claim C6 (amended: restricted to responses with a non-empty results
list, since the empty-results branch takes precedence): a successful
response whose columns list is missing or empty, or whose columns list lacks
"PlayDuration", does not abort the run; the stage treats it as unparseable
and yields the default of disabled access with the total unknown. -/
theorem unparseable_default_disabled (resp : QueryResponse) (limit : ℤ)
    (hres : resp.results.getD [] ≠ [])
    (h : resp.colums.getD [] = [] ∨
        (resp.colums.getD []).findIdx? (· == "PlayDuration") = none) :
    usageStage 200 resp limit = (false, none) := by
  rcases h with h | h
  · simp [usageStage, hres, h]
  · by_cases hcols : resp.colums.getD [] = []
    · simp [usageStage, hres, hcols]
    · simp [usageStage, hres, hcols, h]

/-- Witness for the amended C6: one row but no columns key. -/
theorem unparseable_default_disabled_witness :
    usageStage 200 ⟨none, some [[.vstr "120"]]⟩ 90 = (false, none) := by
  have h := unparseable_default_disabled ⟨none, some [[.vstr "120"]]⟩ 90
    (by simp) (Or.inl rfl)
  exact h

/-- Claim C8 counterexample: the user list has an entry whose `Name` exactly
equals the configured name, and the list call succeeded, yet the run aborts:
the matched `Id` is the empty string and Python's `if not target_user_id`
(line 122) treats it as no match.  The claim's "aborts exactly when the
status is not success or no entry matches" is therefore false here. -/
theorem resolver_counterexample :
    target_user_id [⟨"kid", ""⟩] "kid" = some ""
    ∧ resolveUser 200 [⟨"kid", ""⟩] "kid" = .error .userNotFound := by
  constructor <;> rfl

/-- Claim C8 (amended: the run also aborts when the first matching entry's
identifier is the empty string, which line 122's truthiness test conflates
with no match): the resolver selects the `Id` of the first entry whose
`Name` exactly equals the configured name (case-sensitively), errors with
the users-fetch failure when the list call's status is not 200, and errors
with user-not-found when no entry matches or the first match's `Id` is
empty. -/
theorem resolver_behavior (status : ℕ) (users : List User) (name : String) :
    (status ≠ 200 → resolveUser status users name = .error .usersFetch)
    ∧ (status = 200 → target_user_id users name = none →
        resolveUser status users name = .error .userNotFound)
    ∧ (status = 200 → target_user_id users name = some "" →
        resolveUser status users name = .error .userNotFound)
    ∧ (∀ id, status = 200 → target_user_id users name = some id → id ≠ "" →
        resolveUser status users name = .ok id)
    ∧ (∀ l₁ u l₂, users = l₁ ++ u :: l₂ → (∀ v ∈ l₁, v.Name ≠ name) →
        u.Name = name → target_user_id users name = some u.Id) := by
  refine ⟨?_, ?_, ?_, ?_, ?_⟩
  · intro h
    simp [resolveUser, h]
  · intro h hn
    simp [resolveUser, h, hn]
  · intro h hn
    simp [resolveUser, h, hn]
  · intro id h hn hne
    simp [resolveUser, h, hn, hne]
  · intro l₁ u l₂ hu h₁ hn
    subst hu
    exact target_user_id_first name l₁ u l₂ h₁ hn

/-- Witness for the amended C8: among three entries, the first whose name is
"kid" is selected, even though a later entry also matches. -/
theorem resolver_behavior_witness :
    resolveUser 200 [⟨"alice", "id1"⟩, ⟨"kid", "id2"⟩, ⟨"kid", "id3"⟩] "kid" = .ok "id2" := by
  have h := resolver_behavior 200 [⟨"alice", "id1"⟩, ⟨"kid", "id2"⟩, ⟨"kid", "id3"⟩] "kid"
  have hfirst := h.2.2.2.2 [⟨"alice", "id1"⟩] ⟨"kid", "id2"⟩ [⟨"kid", "id3"⟩] rfl
    (by decide) rfl
  exact h.2.2.2.1 "id2" rfl hfirst (by decide)

/-- Claim C10 counterexample: both settings are present — the token is set,
to the empty string — yet the script exits at the configuration check
instead of proceeding to the first network request, because line 18's
`if not JELLYFIN_TOKEN` also fires on an empty string. -/
theorem config_check_counterexample :
    script (some "") (some "kid") 200 [] 200 ⟨none, none⟩ 90 200 ⟨none, none⟩ 204 =
      .configExit := by
  rfl

/-- Claim C10 (amended: "present" strengthened to present and non-empty,
since Python truthiness also rejects a present-but-empty value): with the
token or user name missing the script exits with the configuration error
before any network call — the outcome is `configExit` whatever every network
response is — and with both present and non-empty it proceeds into the
pipeline, whose first step is the users request. -/
theorem config_check_behavior (JELLYFIN_TOKEN USER_NAME : Option String)
    (usersStatus : ℕ) (users : List User) (usageStatus : ℕ) (resp : QueryResponse)
    (limit : ℤ) (policyStatus : ℕ) (raw : RawPolicy) (updateStatus : ℕ) :
    (JELLYFIN_TOKEN = none ∨ USER_NAME = none →
        script JELLYFIN_TOKEN USER_NAME usersStatus users usageStatus resp limit
            policyStatus raw updateStatus = .configExit)
    ∧ (pyFalsyStr JELLYFIN_TOKEN = false → pyFalsyStr USER_NAME = false →
        script JELLYFIN_TOKEN USER_NAME usersStatus users usageStatus resp limit
            policyStatus raw updateStatus =
          .ran (runPipeline usersStatus users (USER_NAME.getD "") usageStatus resp
            limit policyStatus raw updateStatus)) := by
  constructor
  · rintro (h | h)
    · subst h
      simp [script, pyFalsyStr]
    · subst h
      cases ht : pyFalsyStr JELLYFIN_TOKEN <;> simp [script, pyFalsyStr, ht]
  · intro h1 h2
    simp [script, h1, h2]

/-- Witness for the amended C10: a missing token exits at the configuration
check; a non-empty token and user name reach the pipeline. -/
theorem config_check_behavior_witness :
    script none (some "kid") 200 [] 200 ⟨none, none⟩ 90 200 ⟨none, none⟩ 204 = .configExit
    ∧ script (some "tok") (some "kid") 200 [] 200 ⟨none, none⟩ 90 200 ⟨none, none⟩ 204 =
        .ran (runPipeline 200 [] "kid" 200 ⟨none, none⟩ 90 200 ⟨none, none⟩ 204) := by
  constructor
  · exact (config_check_behavior none (some "kid") 200 [] 200 ⟨none, none⟩ 90 200
      ⟨none, none⟩ 204).1 (Or.inl rfl)
  · exact (config_check_behavior (some "tok") (some "kid") 200 [] 200 ⟨none, none⟩ 90 200
      ⟨none, none⟩ 204).2 (by decide) (by decide)

end TimeLimiter
